import Mathlib

/-!
Shallow embedding of the `monotonic` and `monotonic_mock` crates.

Conventions of the embedding:
* Ticks of the platform monotonic timer and durations are nanosecond counts
  modelled as `Nat`, bounded by `tickMax` (the underlying tick representation
  of `std::time::Instant`) and `durationMax` (the range of
  `std::time::Duration`, `u64` seconds plus sub-second nanoseconds).
* A Rust panic (an `assert!` failure, a `debug_assert!` failure, or an
  arithmetic-overflow panic inside `std`) is modelled as `Option.none`; a
  normal return of `v` is `some v`.  Where the Rust function itself returns
  `Option<T>`, the embedding returns `Option (Option T)`: the outer layer is
  the panic channel, the inner layer is the Rust `Option`.
* The `std::time` primitives the crate delegates to are embedded with their
  documented behaviour on Rust >= 1.60 (the crate requires Rust >= 1.80 for
  exclusive range patterns): `Instant::duration_since` and `Instant - Instant`
  saturate to the zero duration when the subtrahend is later, while
  `Instant + Duration` and `Duration + Duration` panic on overflow.
* The diagnostic (debug-assertions) build of `Instant` carries a
  `ClockSource` tag; the optimized build is embedded separately as
  `RelInstant` with no tag, mirroring the `#[cfg(debug_assertions)]` field.
-/

namespace Monotonic

/-- Upper bound (inclusive) of the tick representation underlying
`std::time::Instant`, in nanoseconds. -/
def tickMax : Nat := 2 ^ 64 - 1

/-- Upper bound (inclusive) of `std::time::Duration`, in nanoseconds:
`u64::MAX` seconds plus `999_999_999` nanoseconds. -/
def durationMax : Nat := (2 ^ 64 - 1) * 10 ^ 9 + (10 ^ 9 - 1)

/-- `std::time::Instant::duration_since` on raw ticks: saturating
subtraction (zero when `earlier` is later than `self`). -/
def stdDurationSince (self earlier : Nat) : Nat := self - earlier

/-- `std::time::Instant::checked_duration_since` on raw ticks: the Rust
`None` when `self` predates `earlier`. -/
def stdCheckedDurationSince (self earlier : Nat) : Option Nat :=
  if earlier ≤ self then some (self - earlier) else none

/-- `std::time::Instant::saturating_duration_since` on raw ticks. -/
def stdSaturatingDurationSince (self earlier : Nat) : Nat := self - earlier

/-- `std::time::Instant::checked_add` on raw ticks: `none` when the sum
leaves the representable tick range. -/
def stdCheckedAdd (t d : Nat) : Option Nat :=
  if t + d ≤ tickMax then some (t + d) else none

/-- `std::time::Instant::checked_sub` on raw ticks: `none` when the
difference leaves the representable tick range. -/
def stdCheckedSub (t d : Nat) : Option Nat :=
  if d ≤ t then some (t - d) else none

/-- `std::time::Instant + std::time::Duration`: panics (modelled `none`)
on tick overflow. -/
def stdAddDur (t d : Nat) : Option Nat := stdCheckedAdd t d

/-- `std::time::Instant - std::time::Duration`: panics (modelled `none`)
on tick underflow. -/
def stdSubDur (t d : Nat) : Option Nat := stdCheckedSub t d

/-- `std::time::Duration + std::time::Duration` (also `+=`): panics
(modelled `none`) on overflow of the duration representation. -/
def durAdd (a b : Nat) : Option Nat :=
  if a + b ≤ durationMax then some (a + b) else none

/-- `ClockSource` of `monotonic/src/lib.rs` (diagnostic builds only):
which clock instance produced a timestamp. -/
inductive ClockSource where
  | Std : ClockSource
  | Mock : Nat → ClockSource
deriving DecidableEq

/-- `Instant` of `monotonic/src/lib.rs` in a diagnostic build: the
underlying tick plus the source tag. -/
structure Instant where
  inner : Nat
  source : ClockSource
deriving DecidableEq

/-- `Instant::duration_since`: asserts equal source tags (failure is
`none`), then delegates to the std saturating subtraction. -/
def Instant.duration_since (self earlier : Instant) : Option Nat :=
  if self.source = earlier.source then
    some (stdDurationSince self.inner earlier.inner)
  else none

/-- `Instant::checked_duration_since`: asserts equal source tags (outer
`none`), then delegates to std; the inner option is the Rust result. -/
def Instant.checked_duration_since (self earlier : Instant) :
    Option (Option Nat) :=
  if self.source = earlier.source then
    some (stdCheckedDurationSince self.inner earlier.inner)
  else none

/-- `Instant::saturating_duration_since`: asserts equal source tags, then
delegates to std. -/
def Instant.saturating_duration_since (self earlier : Instant) : Option Nat :=
  if self.source = earlier.source then
    some (stdSaturatingDurationSince self.inner earlier.inner)
  else none

/-- `Instant::checked_add`: maps the std checked addition over the inner
tick, keeping `self`'s source tag.  Cannot panic, so no panic layer. -/
def Instant.checked_add (self : Instant) (d : Nat) : Option Instant :=
  (stdCheckedAdd self.inner d).map fun inner => ⟨inner, self.source⟩

/-- `Instant::checked_sub`: maps the std checked subtraction over the inner
tick, keeping `self`'s source tag.  Cannot panic, so no panic layer. -/
def Instant.checked_sub (self : Instant) (d : Nat) : Option Instant :=
  (stdCheckedSub self.inner d).map fun inner => ⟨inner, self.source⟩

/-- `impl Add<Duration> for Instant`: `self.inner + rhs` with the source
tag kept; `none` models the std overflow panic. -/
def Instant.add_dur (self : Instant) (d : Nat) : Option Instant :=
  (stdAddDur self.inner d).map fun inner => ⟨inner, self.source⟩

/-- `impl Sub<Duration> for Instant`: `self.inner - rhs` with the source
tag kept; `none` models the std underflow panic. -/
def Instant.sub_dur (self : Instant) (d : Nat) : Option Instant :=
  (stdSubDur self.inner d).map fun inner => ⟨inner, self.source⟩

/-- `impl Sub for Instant` (timestamp minus timestamp): asserts equal
source tags (failure is `none`), then the std saturating subtraction. -/
def Instant.sub_instant (self rhs : Instant) : Option Nat :=
  if self.source = rhs.source then some (self.inner - rhs.inner) else none

/-- `ClockExt::elapsed_since` in a diagnostic build, applied to the value
`now` returned by the clock's `now()`: the `debug_assert!` on the source
tags (failure is `none`) followed by `now - instant`. -/
def elapsed_since (now instant : Instant) : Option Nat :=
  if now.source = instant.source then now.sub_instant instant else none

/-- `Instant` in an optimized build: no source tag, just the tick. -/
structure RelInstant where
  inner : Nat
deriving DecidableEq

/-- `impl Sub for Instant` in an optimized build: no check at all, the
std saturating subtraction of the ticks.  Total: it cannot panic. -/
def RelInstant.sub_instant (self rhs : RelInstant) : Nat :=
  stdDurationSince self.inner rhs.inner

/-- `ClockExt::elapsed_since` in an optimized build, applied to the value
`now` returned by the clock's `now()`: just `now - instant`. -/
def rel_elapsed_since (now instant : RelInstant) : Nat :=
  now.sub_instant instant

/-- State of `MockClock` of `monotonic_mock/src/lib.rs` in a diagnostic
build: the fixed local epoch and the lock-protected elapsed offset. -/
structure MockClock where
  local_epoch : Instant
  elapsed : Nat
deriving DecidableEq

/-- `StdClock::new_mock_epoch`: consumes one id from the process-wide
`NEXT_MOCK_CLOCK_ID` counter (passed and returned explicitly) and tags the
current platform tick with `Mock id`. -/
def new_mock_epoch (counter tick : Nat) : Instant × Nat :=
  (⟨tick, ClockSource.Mock counter⟩, counter + 1)

/-- `impl Default for MockClock` (diagnostic build): epoch from
`new_mock_epoch`, elapsed offset initialized to zero.  Returns the clock
and the updated process-wide counter. -/
def MockClock.new (counter tick : Nat) : MockClock × Nat :=
  (⟨(new_mock_epoch counter tick).1, 0⟩, (new_mock_epoch counter tick).2)

/-- `MockClock::advance`: `*elapsed += duration` under the lock; `none`
models the overflow panic of `Duration`'s addition. -/
def MockClock.advance (c : MockClock) (d : Nat) : Option MockClock :=
  (durAdd c.elapsed d).map fun e => { c with elapsed := e }

/-- `impl Clock for MockClock`: `now()` is `local_epoch + *elapsed`; `none`
models the overflow panic of `Instant + Duration`. -/
def MockClock.now (c : MockClock) : Option Instant :=
  c.local_epoch.add_dur c.elapsed

/-- Observer (not in the source): the mock-clock id recorded in the source
tag of the clock's local epoch, if any. -/
def MockClock.clockId (c : MockClock) : Option Nat :=
  match c.local_epoch.source with
  | ClockSource.Std => none
  | ClockSource.Mock i => some i

/-- `MockClock` state in an optimized build: epoch has no tag. -/
structure RelMockClock where
  local_epoch : RelInstant
  elapsed : Nat
deriving DecidableEq

/-- `impl Default for MockClock` (optimized build): epoch is
`StdClock.now()` (the bare platform tick), elapsed offset zero. -/
def RelMockClock.new (tick : Nat) : RelMockClock := ⟨⟨tick⟩, 0⟩

/-- `impl Clock for MockClock` (optimized build): `local_epoch + elapsed`;
`none` models the overflow panic of `Instant + Duration`. -/
def RelMockClock.now (c : RelMockClock) : Option RelInstant :=
  (stdAddDur c.local_epoch.inner c.elapsed).map fun t => ⟨t⟩

/-- Sequential construction of mock clocks, threading the process-wide id
counter: `mkMockClocksAux c ticks` builds one clock per platform tick in
`ticks`, starting from counter value `c`; returns the clocks and the final
counter value. -/
def mkMockClocksAux : Nat → List Nat → List MockClock × Nat
  | c, [] => ([], c)
  | c, t :: ts =>
    ((MockClock.new c t).1 :: (mkMockClocksAux (MockClock.new c t).2 ts).1,
      (mkMockClocksAux (MockClock.new c t).2 ts).2)

/-- Mock clocks constructed sequentially in a fresh process: the counter
starts at zero. -/
def mkMockClocks (ticks : List Nat) : List MockClock :=
  (mkMockClocksAux 0 ticks).1

/-- Helper: a timestamp produced by mapping a tick computation under a fixed
source tag carries that tag. -/
theorem source_of_map (o : Option Nat) (s : ClockSource) (u : Instant)
    (h : o.map (fun inner => Instant.mk inner s) = some u) : u.source = s := by
  cases o with
  | none => simp at h
  | some v =>
    simp only [Option.map_some'] at h
    cases h
    rfl

/-- Claim C4: for same-source timestamps, `checked_duration_since` returns the
Rust `None` exactly when the first predates the second, `saturating_duration_since`
returns zero in that case, and when the first is not earlier both agree with the
unchecked subtraction. -/
theorem checked_saturating_vs_sub (a b : Instant) (hs : a.source = b.source) :
    (a.checked_duration_since b = some none ↔ a.inner < b.inner) ∧
    (a.inner < b.inner → a.saturating_duration_since b = some 0) ∧
    (b.inner ≤ a.inner →
      a.checked_duration_since b = some (some (a.inner - b.inner)) ∧
      a.saturating_duration_since b = some (a.inner - b.inner) ∧
      a.sub_instant b = some (a.inner - b.inner)) := by
  by_cases hle : b.inner ≤ a.inner <;>
    simp [Instant.checked_duration_since, Instant.saturating_duration_since,
      Instant.sub_instant, stdCheckedDurationSince, stdSaturatingDurationSince,
      stdDurationSince, hs, hle] <;>
    omega

/-- Witness for C4 at a concrete predating pair. -/
theorem checked_saturating_vs_sub_witness :
    Instant.checked_duration_since ⟨2, ClockSource.Std⟩ ⟨5, ClockSource.Std⟩ =
      some none :=
  (checked_saturating_vs_sub ⟨2, ClockSource.Std⟩ ⟨5, ClockSource.Std⟩
    (by decide)).1.mpr (by decide)

/-- Claim C6: `+ Duration`, `- Duration`, `checked_add` and `checked_sub` all
preserve the source tag of the timestamp they act on. -/
theorem instant_arith_preserves_source (t : Instant) (d : Nat) :
    (∀ u, t.add_dur d = some u → u.source = t.source) ∧
    (∀ u, t.sub_dur d = some u → u.source = t.source) ∧
    (∀ u, t.checked_add d = some u → u.source = t.source) ∧
    (∀ u, t.checked_sub d = some u → u.source = t.source) :=
  ⟨fun _ h => source_of_map _ _ _ h, fun _ h => source_of_map _ _ _ h,
    fun _ h => source_of_map _ _ _ h, fun _ h => source_of_map _ _ _ h⟩

/-- Witness for C6 at a concrete addition. -/
theorem instant_arith_preserves_source_witness :
    (Instant.mk 5 ClockSource.Std).source = (Instant.mk 2 ClockSource.Std).source :=
  (instant_arith_preserves_source ⟨2, ClockSource.Std⟩ 3).1
    ⟨5, ClockSource.Std⟩ (by decide)

/-- Claim C8: the elapsed-time extension is definitionally subtraction from the
current time, in both build configurations. -/
theorem elapsed_since_eq_now_sub (now t : Instant) (rn rt : RelInstant) :
    elapsed_since now t = now.sub_instant t ∧
    rel_elapsed_since rn rt = rn.sub_instant rt := by
  constructor
  · by_cases h : now.source = t.source <;>
      simp [elapsed_since, Instant.sub_instant, h]
  · rfl

/-- Claim C9: `checked_add` and `checked_sub` report leaving the representable
tick range as the Rust `None`, and otherwise return the exact (unwrapped)
result; they are total, so they never panic. -/
theorem checked_add_sub_report_none (t : Instant) (d : Nat) :
    (t.inner + d ≤ tickMax → t.checked_add d = some ⟨t.inner + d, t.source⟩) ∧
    (tickMax < t.inner + d → t.checked_add d = none) ∧
    (d ≤ t.inner → t.checked_sub d = some ⟨t.inner - d, t.source⟩) ∧
    (t.inner < d → t.checked_sub d = none) := by
  refine ⟨fun h => ?_, fun h => ?_, fun h => ?_, fun h => ?_⟩ <;>
    simp [Instant.checked_add, Instant.checked_sub, stdCheckedAdd,
      stdCheckedSub] <;>
    omega

/-- Witness for C9 at the boundary of the tick range. -/
theorem checked_add_sub_report_none_witness :
    Instant.checked_add ⟨tickMax, ClockSource.Std⟩ 1 = none ∧
    Instant.checked_sub ⟨0, ClockSource.Std⟩ 1 = none :=
  ⟨(checked_add_sub_report_none ⟨tickMax, ClockSource.Std⟩ 1).2.1 (by decide),
    (checked_add_sub_report_none ⟨0, ClockSource.Std⟩ 1).2.2.2 (by decide)⟩

/-- Claim C1: in diagnostic builds, every elapsed-time computation between two
timestamps with different source tags fails its assertion (`none`); in
particular, for two sequentially constructed mock clocks — with any elapsed
offsets, i.e. after any advances — the elapsed-time extension applied to the
second clock's `now` against the first clock's `now` fails its assertion. -/
theorem cross_source_ops_assert (a b : Instant) (hab : a.source ≠ b.source)
    (n t1 t2 e1 e2 : Nat) (v1 v2 : Instant)
    (h1 : MockClock.now ⟨(MockClock.new n t1).1.local_epoch, e1⟩ = some v1)
    (h2 : MockClock.now
      ⟨(MockClock.new (MockClock.new n t1).2 t2).1.local_epoch, e2⟩ = some v2) :
    a.duration_since b = none ∧
    a.checked_duration_since b = none ∧
    a.saturating_duration_since b = none ∧
    a.sub_instant b = none ∧
    elapsed_since a b = none ∧
    elapsed_since v2 v1 = none := by
  have s1 : v1.source = ClockSource.Mock n := source_of_map _ _ _ h1
  have s2 : v2.source = ClockSource.Mock (n + 1) := source_of_map _ _ _ h2
  refine ⟨?_, ?_, ?_, ?_, ?_, ?_⟩ <;>
    simp [Instant.duration_since, Instant.checked_duration_since,
      Instant.saturating_duration_since, Instant.sub_instant, elapsed_since,
      hab, s1, s2]

/-- Witness for C1 at concrete cross-tagged timestamps and two freshly
constructed mock clocks. -/
theorem cross_source_ops_assert_witness :
    Instant.duration_since ⟨0, ClockSource.Std⟩ ⟨0, ClockSource.Mock 0⟩ = none ∧
    Instant.checked_duration_since ⟨0, ClockSource.Std⟩ ⟨0, ClockSource.Mock 0⟩ =
      none ∧
    Instant.saturating_duration_since ⟨0, ClockSource.Std⟩ ⟨0, ClockSource.Mock 0⟩ =
      none ∧
    Instant.sub_instant ⟨0, ClockSource.Std⟩ ⟨0, ClockSource.Mock 0⟩ = none ∧
    elapsed_since ⟨0, ClockSource.Std⟩ ⟨0, ClockSource.Mock 0⟩ = none ∧
    elapsed_since ⟨7, ClockSource.Mock 1⟩ ⟨5, ClockSource.Mock 0⟩ = none :=
  cross_source_ops_assert ⟨0, ClockSource.Std⟩ ⟨0, ClockSource.Mock 0⟩ (by decide)
    0 5 7 0 0 ⟨5, ClockSource.Mock 0⟩ ⟨7, ClockSource.Mock 1⟩
    (by decide) (by decide)

/-- Claim C2: in an optimized build there is no source tag and no check: for
two freshly constructed mock clocks (platform ticks within the representable
range), both `now` calls succeed and the elapsed-time extension applied across
the two clocks returns a duration — the saturating tick difference, possibly
nonsensical — without any possibility of a panic. -/
theorem release_cross_source_total (t1 t2 : Nat) (h1 : t1 ≤ tickMax)
    (h2 : t2 ≤ tickMax) :
    (RelMockClock.new t1).now = some ⟨t1⟩ ∧
    (RelMockClock.new t2).now = some ⟨t2⟩ ∧
    rel_elapsed_since ⟨t2⟩ ⟨t1⟩ = t2 - t1 := by
  refine ⟨?_, ?_, rfl⟩ <;>
    simp [RelMockClock.new, RelMockClock.now, stdAddDur, stdCheckedAdd, h1, h2]

/-- Witness for C2 at concrete ticks (the second clock seeded earlier than the
first: the cross-clock duration saturates to zero, a nonsensical value, with
no panic). -/
theorem release_cross_source_total_witness :
    (RelMockClock.new 5).now = some ⟨5⟩ ∧
    (RelMockClock.new 3).now = some ⟨3⟩ ∧
    rel_elapsed_since ⟨3⟩ ⟨5⟩ = 3 - 5 :=
  release_cross_source_total 5 3 (by decide) (by decide)

/-- Claim C3: a mock clock's `now` is `local_epoch + elapsed`, the elapsed
offset starts at zero, `now - start` is zero right after construction, and
after `advance d1` then `advance d2` the elapsed time since `start` is exactly
`d1 + d2` (no overflow within the representable ranges). -/
theorem mock_now_advance_exact (n tick d1 d2 : Nat) (htick : tick ≤ tickMax)
    (hd : d1 + d2 ≤ durationMax) (hsum : tick + (d1 + d2) ≤ tickMax) :
    (MockClock.new n tick).1.elapsed = 0 ∧
    (∀ c : MockClock, c.now = c.local_epoch.add_dur c.elapsed) ∧
    (MockClock.new n tick).1.now = some ⟨tick, ClockSource.Mock n⟩ ∧
    Instant.sub_instant ⟨tick, ClockSource.Mock n⟩ ⟨tick, ClockSource.Mock n⟩ =
      some 0 ∧
    (MockClock.new n tick).1.advance d1 =
      some ⟨⟨tick, ClockSource.Mock n⟩, d1⟩ ∧
    MockClock.advance ⟨⟨tick, ClockSource.Mock n⟩, d1⟩ d2 =
      some ⟨⟨tick, ClockSource.Mock n⟩, d1 + d2⟩ ∧
    MockClock.now ⟨⟨tick, ClockSource.Mock n⟩, d1 + d2⟩ =
      some ⟨tick + (d1 + d2), ClockSource.Mock n⟩ ∧
    elapsed_since ⟨tick + (d1 + d2), ClockSource.Mock n⟩
      ⟨tick, ClockSource.Mock n⟩ = some (d1 + d2) := by
  refine ⟨rfl, fun c => rfl, ?_, ?_, ?_, ?_, ?_, ?_⟩
  · simp [MockClock.new, new_mock_epoch, MockClock.now, Instant.add_dur,
      stdAddDur, stdCheckedAdd, htick]
  · simp [Instant.sub_instant]
  · simp [MockClock.new, new_mock_epoch, MockClock.advance, durAdd]
    omega
  · simp only [MockClock.advance, durAdd, if_pos hd, Option.map_some']
  · simp [MockClock.now, Instant.add_dur, stdAddDur, stdCheckedAdd, hsum]
  · simp [elapsed_since, Instant.sub_instant]

/-- Witness for C3 at concrete epoch and advances. -/
theorem mock_now_advance_exact_witness :
    elapsed_since ⟨10 + (2 + 3), ClockSource.Mock 0⟩ ⟨10, ClockSource.Mock 0⟩ =
      some (2 + 3) :=
  (mock_now_advance_exact 0 10 2 3 (by decide) (by decide)
    (by decide)).2.2.2.2.2.2.2

/-- Counterexample to claim C5 as stated: with equal source tags and the first
timestamp predating the second, the unchecked subtraction and `duration_since`
do not panic — they return the zero duration (std saturates since Rust 1.60). -/
theorem sub_underflow_returns_zero :
    Instant.sub_instant ⟨3, ClockSource.Std⟩ ⟨5, ClockSource.Std⟩ = some 0 ∧
    Instant.duration_since ⟨3, ClockSource.Std⟩ ⟨5, ClockSource.Std⟩ = some 0 := by
  decide

/-- Claim C5 amended: for same-source timestamps where the first predates the
second, the unchecked subtraction and `duration_since` saturate to the zero
duration instead of panicking. -/
theorem sub_underflow_saturates (a b : Instant) (hs : a.source = b.source)
    (hlt : a.inner < b.inner) :
    a.sub_instant b = some 0 ∧ a.duration_since b = some 0 := by
  constructor <;>
    simp [Instant.sub_instant, Instant.duration_since, stdDurationSince, hs,
      Nat.sub_eq_zero_of_le (Nat.le_of_lt hlt)]

/-- Witness for the amended C5 at a concrete predating pair. -/
theorem sub_underflow_saturates_witness :
    Instant.sub_instant ⟨1, ClockSource.Mock 0⟩ ⟨4, ClockSource.Mock 0⟩ = some 0 ∧
    Instant.duration_since ⟨1, ClockSource.Mock 0⟩ ⟨4, ClockSource.Mock 0⟩ =
      some 0 :=
  sub_underflow_saturates ⟨1, ClockSource.Mock 0⟩ ⟨4, ClockSource.Mock 0⟩
    (by decide) (by decide)

/-- Helper: sequential construction yields one clock per tick. -/
theorem mkMockClocksAux_length (c : Nat) (ts : List Nat) :
    (mkMockClocksAux c ts).1.length = ts.length := by
  induction ts generalizing c with
  | nil => rfl
  | cons t ts ih => simp [mkMockClocksAux, ih]

/-- Helper: each construction increments the counter exactly once, so after
building the whole list the counter has advanced by the list's length. -/
theorem mkMockClocksAux_counter (c : Nat) (ts : List Nat) :
    (mkMockClocksAux c ts).2 = c + ts.length := by
  induction ts generalizing c with
  | nil => simp [mkMockClocksAux]
  | cons t ts ih =>
    simp [mkMockClocksAux, MockClock.new, new_mock_epoch, ih]
    omega

/-- Helper: the i-th clock constructed starting from counter `c` records the
id `c + i`. -/
theorem mkMockClocksAux_clockId (c : Nat) (ts : List Nat) (i : Nat)
    (h : i < (mkMockClocksAux c ts).1.length) :
    ((mkMockClocksAux c ts).1.get ⟨i, h⟩).clockId = some (c + i) := by
  induction ts generalizing c i with
  | nil => simp [mkMockClocksAux] at h
  | cons t ts ih =>
    cases i with
    | zero =>
      simp [mkMockClocksAux, MockClock.new, new_mock_epoch, MockClock.clockId]
    | succ i =>
      have h2 : i < (mkMockClocksAux (MockClock.new c t).2 ts).1.length := by
        have := mkMockClocksAux_length (MockClock.new c t).2 ts
        have hl := mkMockClocksAux_length c (t :: ts)
        simp [mkMockClocksAux] at h ⊢
        omega
      have step : ((mkMockClocksAux c (t :: ts)).1.get ⟨i + 1, h⟩) =
          ((mkMockClocksAux (MockClock.new c t).2 ts).1.get ⟨i, h2⟩) := rfl
      rw [step, ih _ _ h2]
      have hc : (MockClock.new c t).2 = c + 1 := rfl
      rw [hc]
      congr 1
      omega

/-- Claim C7: the process-wide id counter starts at zero and is incremented
exactly once per mock-clock construction, the i-th constructed clock gets id
`i`, and any two distinct constructions carry distinct `Mock(id)` tags. -/
theorem mock_clock_ids_unique (ticks : List Nat) (i j : Nat)
    (hi : i < (mkMockClocks ticks).length)
    (hj : j < (mkMockClocks ticks).length) (hij : i ≠ j) :
    (mkMockClocksAux 0 ticks).2 = ticks.length ∧
    ((mkMockClocks ticks).get ⟨i, hi⟩).clockId = some i ∧
    ((mkMockClocks ticks).get ⟨j, hj⟩).clockId ≠
      ((mkMockClocks ticks).get ⟨i, hi⟩).clockId := by
  have gi := mkMockClocksAux_clockId 0 ticks i hi
  have gj := mkMockClocksAux_clockId 0 ticks j hj
  refine ⟨by simpa using mkMockClocksAux_counter 0 ticks, by simpa using gi, ?_⟩
  show ((mkMockClocksAux 0 ticks).1.get ⟨j, hj⟩).clockId ≠
    ((mkMockClocksAux 0 ticks).1.get ⟨i, hi⟩).clockId
  rw [gi, gj]
  simp
  omega

/-- Witness for C7 on a two-clock construction trace. -/
theorem mock_clock_ids_unique_witness :
    (mkMockClocksAux 0 [100, 200]).2 = List.length [100, 200] :=
  (mock_clock_ids_unique [100, 200] 0 1 (by decide) (by decide) (by decide)).1

/-- Claim C10: `MockClock::advance` panics (modelled `none`) exactly when the
accumulated elapsed offset plus the increment leaves the duration
representation, and the mock clock's `now` panics exactly when
`local_epoch + elapsed` leaves the tick representation; neither has a
`None`-returning path in its Rust signature — the panic is the only failure
mode. -/
theorem mock_advance_now_overflow_panic (c : MockClock) (d : Nat) :
    (durationMax < c.elapsed + d → c.advance d = none) ∧
    (c.elapsed + d ≤ durationMax →
      c.advance d = some ⟨c.local_epoch, c.elapsed + d⟩) ∧
    (tickMax < c.local_epoch.inner + c.elapsed → c.now = none) ∧
    (c.local_epoch.inner + c.elapsed ≤ tickMax →
      c.now = some ⟨c.local_epoch.inner + c.elapsed, c.local_epoch.source⟩) := by
  refine ⟨fun h => ?_, fun h => ?_, fun h => ?_, fun h => ?_⟩ <;>
    simp [MockClock.advance, durAdd, MockClock.now, Instant.add_dur,
      stdAddDur, stdCheckedAdd] <;>
    omega

/-- Witness for C10 at concrete overflowing states. -/
theorem mock_advance_now_overflow_panic_witness :
    MockClock.advance ⟨⟨0, ClockSource.Std⟩, durationMax⟩ 1 = none ∧
    MockClock.now ⟨⟨tickMax, ClockSource.Std⟩, 1⟩ = none :=
  ⟨(mock_advance_now_overflow_panic ⟨⟨0, ClockSource.Std⟩, durationMax⟩ 1).1
      (by decide),
    (mock_advance_now_overflow_panic ⟨⟨tickMax, ClockSource.Std⟩, 1⟩ 0).2.2.1
      (by decide)⟩

end Monotonic
